import Mathlib

/-!
# The idea-generation handler

A shallow embedding of `netlify/functions/generate-ideas.js`, the single serverless
function of the repository, and the properties its specification states about it.

## How the JavaScript is modelled

* A JavaScript value that can come out of `JSON.parse`, or out of reading a property of
  such a value, is a `JSValue`.  Strings are Lean strings: sequences of Unicode scalar
  values (a JavaScript string with an unpaired surrogate has no counterpart).  A Number is carried by its canonical rendering (`Number::toString`, so `5`,
  `0.1`, `1e+21`, `NaN`, `Infinity`); the handler observes a number only through
  `ToBoolean`, `ToString` and the comparison `> 0`, each a function of that rendering.
* The collaborators whose code is outside the repository are the fields of `Runtime`:
  `JSON.parse`, the conversion of a string to a number, the environment variable
  `GOOGLE_API_KEY` and `fetch`.  Every theorem quantifies over all of them.  A call of
  `fetch` settles: it resolves or it rejects.
* An exception is a value of `JSError`; code inside the `try` block runs in `Run`, which
  records the outcome together with the calls made to the outside (`Effect`), so that the
  calls made before an exception are still visible after the `catch`.
-/

set_option maxRecDepth 100000

namespace IdeaSpark

/-! ## JavaScript values -/

/-- The exceptions the `try` block can raise: `JSON.parse` on malformed text, an access
through `null` or `undefined` (or a call of something that is no function), and a
rejection of `fetch` or of reading the response body. -/
inductive JSError where
  | syntaxError
  | typeError
  | fetchError
deriving DecidableEq, Repr

/-- A Number, carried by its canonical decimal rendering `Number::toString`. Both zeros
render as `0`. -/
structure JSNumber where
  repr : String
deriving DecidableEq, Repr

/-- The values reachable from `JSON.parse`: the six JSON kinds and `undefined`, which is
what reading a missing property gives. An object is its list of own properties, each
key occurring once, as in a JavaScript object. -/
inductive JSValue where
  | undefined
  | null
  | bool (b : Bool)
  | num (n : JSNumber)
  | str (s : String)
  | arr (items : List JSValue)
  | obj (props : List (String × JSValue))

namespace JSNumber

/-- The number of a length or an index. -/
def ofNat (n : Nat) : JSNumber := ⟨toString n⟩

/-- The numbers that `ToBoolean` sends to `false`: zero (of either sign) and `NaN`. -/
def isFalsy (n : JSNumber) : Bool := n.repr == "0" || n.repr == "NaN"

/-- The comparison `n > 0`: `n` is not zero, not `NaN` and carries no minus sign. -/
def isPositive (n : JSNumber) : Bool :=
  !n.isFalsy && n.repr.data.head? != some '-'

end JSNumber

namespace JSValue

/-- The abstract operation `ToBoolean`, as applied by `!x`, `x && y` and `if (x)`. -/
def toBoolean : JSValue → Bool
  | undefined => false
  | null => false
  | bool b => b
  | num n => !n.isFalsy
  | str s => s != ""
  | arr _ => true
  | obj _ => true

/-- Whether an object has an own property of that name. -/
def hasOwn (props : List (String × JSValue)) (name : String) : Bool :=
  (props.lookup name).isSome

/-- The value of an own property, `undefined` when there is none. -/
def getOwn (props : List (String × JSValue)) (name : String) : JSValue :=
  (props.lookup name).getD undefined

/-- The length of a string in UTF-16 code units, which is what `s.length` counts. -/
def utf16Length (s : String) : Nat :=
  (s.data.map fun c => if c.toNat < 65536 then 1 else 2).sum

/-- The property access `v.name` for an identifier `name` that is none of the methods of
the built-in prototypes (the handler reads `prompt`, `candidates`, `length`, `content`,
`parts`, `text`, `promptFeedback` and `blockReason`). Reading through `null` or
`undefined` throws; a primitive has no such property except the `length` of a string. -/
def getProp (v : JSValue) (name : String) : Except JSError JSValue :=
  match v with
  | undefined => .error .typeError
  | null => .error .typeError
  | bool _ => .ok undefined
  | num _ => .ok undefined
  | str s => .ok (if name = "length" then num (JSNumber.ofNat (utf16Length s)) else undefined)
  | arr items => .ok (if name = "length" then num (JSNumber.ofNat items.length) else undefined)
  | obj props => .ok (getOwn props name)

/-- The indexed access `v[i]`. On an object this is the property named by the decimal
rendering of `i`. On a string it is the one-unit string at that position; the model gives
the character at that position, which is the same string within the Basic Multilingual
Plane (the handler only ever reads from it a property that no string has). -/
def getIndex (v : JSValue) (i : Nat) : Except JSError JSValue :=
  match v with
  | undefined => .error .typeError
  | null => .error .typeError
  | bool _ => .ok undefined
  | num _ => .ok undefined
  | str s => .ok ((s.data.get? i).elim undefined fun c => str (String.singleton c))
  | arr items => .ok ((items.get? i).getD undefined)
  | obj props => .ok (getOwn props (toString i))

mutual
/-- The abstract operation `ToString`, as applied by a template literal. An array is
joined with commas; an object renders through `Object.prototype.toString`, unless it has
an own property `toString`, which (being JSON data) is no function: then neither
`toString` nor `valueOf` gives a primitive and the conversion throws. -/
def toStr : JSValue → Except JSError String
  | undefined => .ok "undefined"
  | null => .ok "null"
  | bool b => .ok (if b then "true" else "false")
  | num n => .ok n.repr
  | str s => .ok s
  | arr items => (elementStrs items).map (String.intercalate ",")
  | obj props => if hasOwn props "toString" then .error .typeError else .ok "[object Object]"
/-- The strings `Array.prototype.join` puts between the commas: `undefined` and `null`
elements give the empty string. -/
def elementStrs : List JSValue → Except JSError (List String)
  | [] => .ok []
  | x :: rest =>
    match elementStr x, elementStrs rest with
    | .ok s, .ok ss => .ok (s :: ss)
    | .error e, _ => .error e
    | .ok _, .error e => .error e
/-- One element of a joined array. -/
def elementStr : JSValue → Except JSError String
  | undefined => .ok ""
  | null => .ok ""
  | bool b => .ok (if b then "true" else "false")
  | num n => .ok n.repr
  | str s => .ok s
  | arr items => (elementStrs items).map (String.intercalate ",")
  | obj props => if hasOwn props "toString" then .error .typeError else .ok "[object Object]"
end

/-- The comparison `v > 0`. An array or an object is first converted to a primitive, which
for values made of JSON data is the string of `toStr`; a string is converted by the
runtime to a number. -/
def gtZero (stringToNumber : String → JSNumber) (v : JSValue) : Except JSError Bool :=
  match v with
  | undefined => .ok false
  | null => .ok false
  | bool b => .ok b
  | num n => .ok n.isPositive
  | str s => .ok (stringToNumber s).isPositive
  | arr items => (toStr (arr items)).map fun s => (stringToNumber s).isPositive
  | obj props => (toStr (obj props)).map fun s => (stringToNumber s).isPositive

end JSValue

/-! ## Strings: `split`, `trim`, `JSON.stringify` -/

/-- The pieces of a text between its line breaks: `text.split('\n')`. -/
def splitOnNewline : List Char → List (List Char)
  | [] => [[]]
  | c :: cs =>
    if c = '\n' then [] :: splitOnNewline cs
    else
      match splitOnNewline cs with
      | [] => [[c]]
      | piece :: rest => (c :: piece) :: rest

/-- The method `String.prototype.split` with the separator `"\n"`. -/
def jsSplitLines (text : String) : List String :=
  (splitOnNewline text.data).map String.mk

/-- The characters `String.prototype.trim` removes: the ECMAScript WhiteSpace code points
(TAB, VT, FF, ZWNBSP and the space separators) and the LineTerminator code points (LF, CR,
LS, PS). -/
def isWhiteSpace (c : Char) : Bool :=
  let n := c.toNat
  n == 0x09 || n == 0x0A || n == 0x0B || n == 0x0C || n == 0x0D || n == 0x20 ||
  n == 0xA0 || n == 0x1680 || (0x2000 ≤ n && n ≤ 0x200A) || n == 0x2028 || n == 0x2029 ||
  n == 0x202F || n == 0x205F || n == 0x3000 || n == 0xFEFF

/-- The method `String.prototype.trim`: white space removed from both ends. -/
def jsTrim (s : String) : String :=
  String.mk ((s.data.dropWhile isWhiteSpace).reverse.dropWhile isWhiteSpace).reverse

/-- A lower-case hexadecimal digit. -/
def hexDigit (n : Nat) : Char :=
  if n < 10 then Char.ofNat (48 + n) else Char.ofNat (87 + n)

/-- One character inside a JSON string literal, as `QuoteJSONString` writes it. -/
def quoteChar (c : Char) : String :=
  if c = Char.ofNat 34 then "\\\""
  else if c = Char.ofNat 92 then "\\\\"
  else if c = Char.ofNat 8 then "\\b"
  else if c = Char.ofNat 12 then "\\f"
  else if c = '\n' then "\\n"
  else if c = '\r' then "\\r"
  else if c = '\t' then "\\t"
  else if c.toNat < 32 then
    String.mk ['\\', 'u', '0', '0', hexDigit (c.toNat / 16), hexDigit (c.toNat % 16)]
  else String.singleton c

/-- The operation `QuoteJSONString`. -/
def quoteJSONString (s : String) : String :=
  "\"" ++ String.join (s.data.map quoteChar) ++ "\""

namespace JSValue

mutual
/-- The operation `SerializeJSONProperty` without indentation; `none` is `undefined`. A
number that is not finite is written `null`. -/
def serialize : JSValue → Option String
  | undefined => none
  | null => some "null"
  | bool b => some (if b then "true" else "false")
  | num n =>
    some (if n.repr = "NaN" ∨ n.repr = "Infinity" ∨ n.repr = "-Infinity" then "null" else n.repr)
  | str s => some (quoteJSONString s)
  | arr items => some ("[" ++ ",".intercalate (serializeElements items) ++ "]")
  | obj props => some ("\x7b" ++ ",".intercalate (serializeProperties props) ++ "\x7d")
/-- The elements of a serialised array: an `undefined` element is written `null`. -/
def serializeElements : List JSValue → List String
  | [] => []
  | x :: rest => (serialize x).getD "null" :: serializeElements rest
/-- The members of a serialised object: an `undefined` property is left out. -/
def serializeProperties : List (String × JSValue) → List String
  | [] => []
  | (key, v) :: rest =>
    match serialize v with
    | none => serializeProperties rest
    | some s => (quoteJSONString key ++ ":" ++ s) :: serializeProperties rest
end

end JSValue

/-- The call `JSON.stringify({...})` on an object literal with these properties. -/
def stringifyObject (props : List (String × JSValue)) : String :=
  "\x7b" ++ ",".intercalate (JSValue.serializeProperties props) ++ "\x7d"

/-! ## The world around the handler -/

/-- The argument of the handler: the method of the inbound request and its body, which
the platform gives as a string or as `null` (`none`). -/
structure Event where
  httpMethod : String
  body : Option String
deriving DecidableEq, Repr

/-- The value the handler returns to the platform. -/
structure Response where
  statusCode : Nat
  body : String
deriving DecidableEq, Repr

/-- The arguments of the call to `fetch`. -/
structure FetchRequest where
  url : String
  method : String
  headers : List (String × String)
  body : String
deriving DecidableEq, Repr

/-- What `fetch` resolves to, as far as the handler reads it: the flag `ok` (which
`node-fetch` sets for a status from 200 to 299), the status, and the body, whose reading
can itself fail. The method `json()` reads the body and hands it to `JSON.parse`. -/
structure ApiResponse where
  ok : Bool
  status : Nat
  text : Except JSError String

/-- The collaborators of the handler. `jsonParse` is `JSON.parse`, `stringToNumber` the
conversion of a string to a number, `apiKey` the environment variable `GOOGLE_API_KEY`
(`none` when unset) and `fetch` the upstream service as seen through `node-fetch`, which
either rejects or resolves to a response. -/
structure Runtime where
  jsonParse : String → Except JSError JSValue
  stringToNumber : String → JSNumber
  apiKey : Option String
  fetch : FetchRequest → Except JSError ApiResponse

/-- The calls the handler makes to the outside, in the order it makes them: the call of
`JSON.parse` of line 15, the call of `fetch`, and the two calls of `console.error`. The
decoding of the upstream body happens inside `json()` of `node-fetch` and is not listed. -/
inductive Effect where
  | jsonParse (text : String)
  | fetch (request : FetchRequest)
  | logApiError (errorText : String)
  | logFunctionError (error : JSError)
deriving DecidableEq, Repr

/-- A computation inside the `try` block: its value or the exception it raised, and the
calls made until then. -/
structure Run (α : Type) where
  result : Except JSError α
  trace : List Effect

namespace Run

/-- Sequencing: an exception stops the computation and keeps the calls made so far. -/
def bind {α β : Type} (x : Run α) (f : α → Run β) : Run β :=
  match x.result with
  | .error e => ⟨.error e, x.trace⟩
  | .ok a => ⟨(f a).result, x.trace ++ (f a).trace⟩

instance : Monad Run where
  pure a := ⟨.ok a, []⟩
  bind := bind

/-- A step that calls nothing outside: a property access, a conversion. -/
def lift {α : Type} (r : Except JSError α) : Run α := ⟨r, []⟩

/-- The call `JSON.parse(text)`. -/
def jsonParse (rt : Runtime) (text : String) : Run JSValue :=
  ⟨rt.jsonParse text, [.jsonParse text]⟩

/-- The call `await fetch(url, options)`. -/
def fetch (rt : Runtime) (request : FetchRequest) : Run ApiResponse :=
  ⟨rt.fetch request, [.fetch request]⟩

/-- A call of `console.error`. -/
def log (e : Effect) : Run Unit := ⟨.ok (), [e]⟩

end Run

/-- The value of `process.env.GOOGLE_API_KEY`: a string, or `undefined` when unset. -/
def envValue (v : Option String) : JSValue :=
  v.elim .undefined .str

/-! ## The handler -/

/-- The text of the template before the prompt (line 37). -/
def templateHead : String :=
  "Generate a numbered list of 5 creative and unique ideas for the following topic: \""

/-- The text of the template after the prompt (line 37). -/
def templateTail : String :=
  "\". Return only the numbered list, without any introductory text."

/-- The address of the upstream service without the key (line 36). -/
def apiBase : String :=
  "https://generativelanguage.googleapis.com/v1beta/models/gemini-2.0-flash:generateContent?key="

/-- The object `payload` of lines 39-43. -/
def payload (fullPrompt : String) : List (String × JSValue) :=
  [("contents", .arr [.obj [("parts", .arr [.obj [("text", .str fullPrompt)]])]])]

/-- The call of lines 46-50 for a key and a full prompt. -/
def apiRequest (apiKey fullPrompt : String) : FetchRequest :=
  { url := apiBase ++ apiKey
    method := "POST"
    headers := [("Content-Type", "application/json")]
    body := stringifyObject (payload fullPrompt) }

/-- The body of an error response: `JSON.stringify` of an object with the one property
`error`. -/
def errorBody (message : String) : String :=
  stringifyObject [("error", .str message)]

/-- The message of line 32. -/
def missingKeyMessage : String :=
  "API key is not configured on the server. Please set the GOOGLE_API_KEY environment variable in your Netlify site settings."

/-- The response of the `catch` block (lines 78-81). -/
def internalError : Response :=
  ⟨500, errorBody "An internal server error occurred."⟩

/-- The list of line 63: `text.split('\n').filter(idea => idea.trim() !== '')`. -/
def extractIdeas (text : String) : List String :=
  (jsSplitLines text).filter fun idea => jsTrim idea != ""

/-- The method call `text.split(...)` of line 63 succeeds on a string only: anything else
has no function `split`. -/
def splitText (text : JSValue) : Except JSError (List String) :=
  match text with
  | .str t => .ok (extractIdeas t)
  | _ => .error .typeError

/-- The condition of line 61:
`data.candidates && data.candidates.length > 0 && data.candidates[0].content`. -/
def hasCandidateContent (rt : Runtime) (data : JSValue) : Except JSError Bool := do
  let candidates ← data.getProp "candidates"
  if !candidates.toBoolean then pure false
  else
    let length ← candidates.getProp "length"
    let positive ← JSValue.gtZero rt.stringToNumber length
    if !positive then pure false
    else
      let first ← candidates.getIndex 0
      let content ← first.getProp "content"
      pure content.toBoolean

/-- The expression of line 62: `data.candidates[0].content.parts[0].text`. -/
def firstPartText (data : JSValue) : Except JSError JSValue := do
  let candidates ← data.getProp "candidates"
  let first ← candidates.getIndex 0
  let content ← first.getProp "content"
  let parts ← content.getProp "parts"
  let part ← parts.getIndex 0
  part.getProp "text"

/-- The `else` branch of lines 69-74: the safety block, or the malformed reply. -/
def withoutContent (data : JSValue) : Except JSError Response := do
  let promptFeedback ← data.getProp "promptFeedback"
  if !promptFeedback.toBoolean then
    pure ⟨500, errorBody "Invalid response structure from API."⟩
  else
    let blockReason ← promptFeedback.getProp "blockReason"
    if !blockReason.toBoolean then
      pure ⟨500, errorBody "Invalid response structure from API."⟩
    else
      let reason ← blockReason.toStr
      pure ⟨400, errorBody ("Request blocked by safety settings: " ++ reason)⟩

/-- The translation of the upstream reply (lines 52-74). -/
def translateReply (rt : Runtime) (apiResponse : ApiResponse) : Run Response := do
  if !apiResponse.ok then
    let errorText ← Run.lift apiResponse.text
    Run.log (.logApiError errorText)
    pure ⟨apiResponse.status, errorBody ("Google AI API error: " ++ errorText)⟩
  else
    let data ← Run.lift (apiResponse.text >>= rt.jsonParse)
    let found ← Run.lift (hasCandidateContent rt data)
    if found then
      let text ← Run.lift (firstPartText data)
      let ideas ← Run.lift (splitText text)
      pure ⟨200, stringifyObject [("ideas", .arr (ideas.map .str))]⟩
    else
      Run.lift (withoutContent data)

/-- The body of the `try` block (lines 15-74). `JSON.parse` converts its argument to a
string first, so that a body `null` is parsed as the text `null`. -/
def tryBlock (rt : Runtime) (event : Event) : Run Response := do
  let parsed ← Run.jsonParse rt (event.body.getD "null")
  let prompt ← Run.lift (parsed.getProp "prompt")
  if !prompt.toBoolean then
    pure ⟨400, errorBody "No prompt provided."⟩
  else
    let apiKey := envValue rt.apiKey
    if !apiKey.toBoolean then
      pure ⟨500, errorBody missingKeyMessage⟩
    else
      let keyText ← Run.lift apiKey.toStr
      let promptText ← Run.lift prompt.toStr
      let fullPrompt := templateHead ++ promptText ++ templateTail
      let apiResponse ← Run.fetch rt (apiRequest keyText fullPrompt)
      translateReply rt apiResponse

/-- What one invocation does: the response it returns and the calls it made. -/
structure Outcome where
  response : Response
  trace : List Effect
deriving DecidableEq, Repr

/-- The function `exports.handler` (lines 8-83): the method check, then the `try` block,
whose exceptions the `catch` block logs and turns into the internal error. -/
def handler (rt : Runtime) (event : Event) : Outcome :=
  if event.httpMethod ≠ "POST" then
    ⟨⟨405, "Method Not Allowed"⟩, []⟩
  else
    let run := tryBlock rt event
    match run.result with
    | .ok response => ⟨response, run.trace⟩
    | .error error => ⟨internalError, run.trace ++ [.logFunctionError error]⟩

/-- The outbound calls among the calls made. -/
def fetchCalls : List Effect → List FetchRequest
  | [] => []
  | .fetch request :: rest => request :: fetchCalls rest
  | _ :: rest => fetchCalls rest

/-- The texts handed to `JSON.parse` by the handler itself. -/
def parseCalls : List Effect → List String
  | [] => []
  | .jsonParse text :: rest => text :: parseCalls rest
  | _ :: rest => parseCalls rest

/-! ## Vocabulary of the statements -/

/-- The request gets as far as the upstream call: it is a POST, its body parses to a
value whose `prompt` is truthy and renders (in the template) as `promptText`, and the
credential is set to the non-empty string `key`. For a string prompt `promptText` is the
prompt itself. -/
def PassesValidation (rt : Runtime) (event : Event) (key promptText : String) : Prop :=
  event.httpMethod = "POST" ∧
  (∃ parsed prompt, rt.jsonParse (event.body.getD "null") = .ok parsed ∧
    parsed.getProp "prompt" = .ok prompt ∧ prompt.toBoolean = true ∧
    prompt.toStr = .ok promptText) ∧
  rt.apiKey = some key ∧ key ≠ ""

/-- The upstream call made for a key and the text a prompt renders to. -/
def upstreamCall (key promptText : String) : FetchRequest :=
  apiRequest key (templateHead ++ promptText ++ templateTail)

/-- The upstream answers the call with a success status and a body that decodes to
`data`. -/
def RepliesWith (rt : Runtime) (request : FetchRequest) (data : JSValue) : Prop :=
  ∃ reply body, rt.fetch request = .ok reply ∧ reply.ok = true ∧
    reply.text = .ok body ∧ rt.jsonParse body = .ok data

/-! ## Sample collaborators for the worked examples -/

/-- The function `JSON.parse` on the texts of the worked examples: six request bodies and
four upstream bodies with their values; the remaining text of the examples, `not json`,
is malformed. -/
def sampleParse (text : String) : Except JSError JSValue :=
  if text = "\x7b\"prompt\":\"cats\"\x7d" then
    .ok (.obj [("prompt", .str "cats")])
  else if text = "\x7b\"prompt\":\"\"\x7d" then
    .ok (.obj [("prompt", .str "")])
  else if text = "\x7b\x7d" then
    .ok (.obj [])
  else if text = "null" then
    .ok .null
  else if text = "\x7b\"prompt\":true\x7d" then
    .ok (.obj [("prompt", .bool true)])
  else if text = "\x7b\"prompt\":\"say \\\"hi\\\"\"\x7d" then
    .ok (.obj [("prompt", .str "say \"hi\"")])
  else if text = "\x7b\"candidates\":[\x7b\"content\":\x7b\"parts\":[\x7b\"text\":\"1. Idea A\\n2. Idea B\\n\\n3. Idea C\"\x7d]\x7d\x7d]\x7d" then
    .ok (.obj [("candidates", .arr [.obj [("content",
      .obj [("parts", .arr [.obj [("text", .str "1. Idea A\n2. Idea B\n\n3. Idea C")]])])]])])
  else if text = "\x7b\"candidates\":[\x7b\"content\":\x7b\x7d\x7d]\x7d" then
    .ok (.obj [("candidates", .arr [.obj [("content", .obj [])]])])
  else if text = "\x7b\"promptFeedback\":\x7b\"blockReason\":\"SAFETY\"\x7d\x7d" then
    .ok (.obj [("promptFeedback", .obj [("blockReason", .str "SAFETY")])])
  else if text = "\x7b\"promptFeedback\":\x7b\"blockReason\":\"\"\x7d\x7d" then
    .ok (.obj [("promptFeedback", .obj [("blockReason", .str "")])])
  else
    .error .syntaxError

/-- The conversion of a string to a number on the empty string and on text that is no
numeric literal; the worked examples convert no other string. -/
def sampleStringToNumber (s : String) : JSNumber :=
  if s = "" then ⟨"0"⟩ else ⟨"NaN"⟩

/-- A runtime for the worked examples: a credential, and an upstream that answers every
call the same way. -/
def sampleRuntime (apiKey : Option String) (answer : Except JSError ApiResponse) : Runtime :=
  { jsonParse := sampleParse
    stringToNumber := sampleStringToNumber
    apiKey := apiKey
    fetch := fun _ => answer }

/-- A POST request with that body. -/
def post (body : String) : Event := ⟨"POST", some body⟩

/-- A successful upstream answer with that body. -/
def okReply (body : String) : Except JSError ApiResponse :=
  .ok ⟨true, 200, .ok body⟩

/-! ## Lemmas on the model -/

theorem digitChar_head (d : Nat) (h0 : 0 < d) (h10 : d < 10) :
    Nat.digitChar d ≠ '0' ∧ Nat.digitChar d ≠ '-' ∧ Nat.digitChar d ≠ 'N' := by
  interval_cases d <;> decide

theorem toDigitsCore_head (fuel : Nat) : ∀ (n : Nat) (ds : List Char), 0 < n → n < fuel →
    ∃ c rest, Nat.toDigitsCore 10 fuel n ds = c :: rest ∧ c ≠ '0' ∧ c ≠ '-' ∧ c ≠ 'N' := by
  induction fuel with
  | zero => intro n ds _ h; omega
  | succ fuel ih =>
    intro n ds hn hlt
    unfold Nat.toDigitsCore
    by_cases hq : n / 10 = 0
    · simp only [hq, if_true]
      have hsmall : n < 10 := by omega
      have hmod : n % 10 = n := Nat.mod_eq_of_lt hsmall
      exact ⟨_, _, rfl, by rw [hmod]; exact digitChar_head n hn hsmall⟩
    · simp only [hq, if_false]
      exact ih (n / 10) _ (Nat.pos_of_ne_zero hq) (by omega)

/-- The length of a non-empty array is a positive number. -/
theorem ofNat_succ_isPositive (n : Nat) : (JSNumber.ofNat (n + 1)).isPositive = true := by
  obtain ⟨c, rest, h, h0, hm, hN⟩ := toDigitsCore_head (n + 1 + 1) (n + 1) [] (by omega) (by omega)
  have hrepr : (toString (n + 1)).data = c :: rest := by
    show (Nat.repr (n + 1)).data = _
    simp [Nat.repr, Nat.toDigits, h, List.asString]
  have hne0 : toString (n + 1) ≠ "0" := by
    intro hh; rw [hh] at hrepr; simp at hrepr; exact h0 hrepr.1.symm
  have hneN : toString (n + 1) ≠ "NaN" := by
    intro hh; rw [hh] at hrepr; simp at hrepr; exact hN hrepr.1.symm
  simp [JSNumber.isPositive, JSNumber.isFalsy, JSNumber.ofNat, hrepr, hne0, hneN, hm]

/-- The run of the `try` block for a request that passes validation: the body is parsed,
the upstream is called once, and the rest is the translation of its reply. -/
theorem tryBlock_of_passes {rt : Runtime} {event : Event} {key promptText : String}
    (h : PassesValidation rt event key promptText) :
    tryBlock rt event =
      Run.bind (Run.jsonParse rt (event.body.getD "null")) fun _ =>
        Run.bind (Run.fetch rt (upstreamCall key promptText)) (translateReply rt) := by
  obtain ⟨_, ⟨parsed, prompt, hparse, hprompt, htruthy, hstr⟩, hkey, hk⟩ := h
  have hkb : (envValue (some key)).toBoolean = true := by
    simp [envValue, JSValue.toBoolean, hk]
  have hks : (envValue (some key)).toStr = .ok key := by
    simp [envValue, JSValue.toStr]
  simp [tryBlock, bind, Run.bind, Run.jsonParse, Run.lift, Run.fetch, hparse, hprompt, htruthy,
    hkey, hkb, hks, hstr, upstreamCall]

/-- The outcome of the handler for a request that passes validation and whose upstream
call is answered: the translation of the reply, or the internal error when that throws. -/
theorem handler_of_passes {rt : Runtime} {event : Event} {key promptText : String}
    {reply : ApiResponse} (h : PassesValidation rt event key promptText)
    (hfetch : rt.fetch (upstreamCall key promptText) = .ok reply) :
    handler rt event =
      match (translateReply rt reply).result with
      | .ok response =>
        ⟨response, .jsonParse (event.body.getD "null") :: .fetch (upstreamCall key promptText) ::
          (translateReply rt reply).trace⟩
      | .error e =>
        ⟨internalError, .jsonParse (event.body.getD "null") :: .fetch (upstreamCall key promptText) ::
          ((translateReply rt reply).trace ++ [.logFunctionError e])⟩ := by
  have hpost : event.httpMethod = "POST" := h.1
  obtain ⟨parsed, _, hparse, _⟩ := h.2.1
  simp only [handler, tryBlock_of_passes h, hpost]
  cases hres : (translateReply rt reply).result <;>
    simp [Run.bind, Run.jsonParse, Run.fetch, hfetch, hres, hparse]

/-- The translation of a reply with a non-success status whose body can be read. -/
theorem translateReply_failure {rt : Runtime} {reply : ApiResponse} {b : String}
    (hok : reply.ok = false) (htext : reply.text = .ok b) :
    translateReply rt reply =
      ⟨.ok ⟨reply.status, errorBody ("Google AI API error: " ++ b)⟩, [.logApiError b]⟩ := by
  simp [translateReply, hok, htext, bind, Run.bind, Run.lift, Run.log, pure]

/-- The translation of a reply with a success status whose body decodes to `data`. -/
theorem translateReply_success {rt : Runtime} {reply : ApiResponse} {body : String}
    {data : JSValue} (hok : reply.ok = true) (htext : reply.text = .ok body)
    (hjson : rt.jsonParse body = .ok data) :
    translateReply rt reply =
      ⟨(do
        let found ← hasCandidateContent rt data
        if found then
          let text ← firstPartText data
          let ideas ← splitText text
          pure ⟨200, stringifyObject [("ideas", .arr (ideas.map .str))]⟩
        else withoutContent data), []⟩ := by
  simp only [translateReply, hok, htext]
  cases hfound : hasCandidateContent rt data with
  | error e => simp [bind, Run.bind, Run.lift, Except.bind, hjson, hfound]
  | ok found =>
    cases found with
    | false => simp [bind, Run.bind, Run.lift, Except.bind, hjson, hfound]
    | true =>
      cases htxt : firstPartText data with
      | error e => simp [bind, Run.bind, Run.lift, Except.bind, hjson, hfound, htxt]
      | ok text =>
        cases hsplit : splitText text <;>
          simp [bind, Run.bind, Run.lift, Except.bind, hjson, hfound, htxt, hsplit, pure,
            Except.pure]

/-- The decision taken on a decoded reply (lines 61-74), as a plain computation. -/
theorem handler_of_reply {rt : Runtime} {event : Event} {key promptText : String}
    {data : JSValue} (h : PassesValidation rt event key promptText)
    (hr : RepliesWith rt (upstreamCall key promptText) data) :
    (handler rt event).response =
      match (do
        let found ← hasCandidateContent rt data
        if found then
          let text ← firstPartText data
          let ideas ← splitText text
          pure (⟨200, stringifyObject [("ideas", .arr (ideas.map .str))]⟩ : Response)
        else withoutContent data) with
      | .ok response => response
      | .error _ => internalError := by
  obtain ⟨reply, body, hfetch, hok, htext, hjson⟩ := hr
  rw [handler_of_passes h hfetch, translateReply_success hok htext hjson]
  dsimp only
  split <;> rename_i heq <;> simp [heq]

/-- A value with a property that is neither `undefined` nor a number is an object. -/
theorem getProp_isObject {v w : JSValue} {name : String} (h : v.getProp name = .ok w)
    (hu : w ≠ .undefined) (hn : ∀ n, w ≠ .num n) : ∃ props, v = .obj props := by
  cases v with
  | undefined => simp [JSValue.getProp] at h
  | null => simp [JSValue.getProp] at h
  | bool b => simp [JSValue.getProp] at h; exact absurd h.symm hu
  | num n => simp [JSValue.getProp] at h; exact absurd h.symm hu
  | str s =>
    simp only [JSValue.getProp, Except.ok.injEq] at h
    split at h
    · exact absurd h.symm (hn _)
    · exact absurd h.symm hu
  | arr items =>
    simp only [JSValue.getProp, Except.ok.injEq] at h
    split at h
    · exact absurd h.symm (hn _)
    · exact absurd h.symm hu
  | obj props => exact ⟨props, rfl⟩

theorem toBoolean_arr (items : List JSValue) : (JSValue.arr items).toBoolean = true := rfl

theorem getProp_arr_length (items : List JSValue) :
    (JSValue.arr items).getProp "length" = .ok (.num (JSNumber.ofNat items.length)) := by
  simp [JSValue.getProp]

theorem getIndex_arr_cons (x : JSValue) (xs : List JSValue) :
    (JSValue.arr (x :: xs)).getIndex 0 = .ok x := by
  simp [JSValue.getIndex]

theorem gtZero_num (f : String → JSNumber) (n : JSNumber) :
    JSValue.gtZero f (.num n) = .ok n.isPositive := rfl

/-- The condition of line 61 on a reply with a non-empty candidate list: it is the
truthiness of the content of the first candidate. -/
theorem hasCandidateContent_of_first {rt : Runtime} {data first content : JSValue}
    {others : List JSValue} (hc : data.getProp "candidates" = .ok (.arr (first :: others)))
    (hcontent : first.getProp "content" = .ok content) :
    hasCandidateContent rt data = .ok content.toBoolean := by
  simp [hasCandidateContent, hc, bind, Except.bind, toBoolean_arr, getProp_arr_length,
    gtZero_num, ofNat_succ_isPositive, getIndex_arr_cons, hcontent, pure, Except.pure]

/-- The condition of line 61 on a reply without candidate: `candidates` is absent, `null`
or an empty list. -/
theorem hasCandidateContent_of_none {rt : Runtime} {data candidates : JSValue}
    (hc : data.getProp "candidates" = .ok candidates)
    (hnone : candidates = .undefined ∨ candidates = .null ∨ candidates = .arr []) :
    hasCandidateContent rt data = .ok false := by
  rcases hnone with h | h | h <;> subst h
  · have hb : JSValue.undefined.toBoolean = false := rfl
    simp [hasCandidateContent, hc, bind, Except.bind, hb, pure, Except.pure]
  · have hb : JSValue.null.toBoolean = false := rfl
    simp [hasCandidateContent, hc, bind, Except.bind, hb, pure, Except.pure]
  · have h0 : (JSNumber.ofNat 0).isPositive = false := by decide
    simp [hasCandidateContent, hc, bind, Except.bind, toBoolean_arr, getProp_arr_length,
      gtZero_num, h0, pure, Except.pure]

/-- The expression of line 62 on a reply with a non-empty candidate list. -/
theorem firstPartText_of_first {data first content : JSValue} {others : List JSValue}
    (hc : data.getProp "candidates" = .ok (.arr (first :: others)))
    (hcontent : first.getProp "content" = .ok content) :
    firstPartText data = (do
      let parts ← content.getProp "parts"
      let part ← parts.getIndex 0
      part.getProp "text") := by
  simp [firstPartText, hc, bind, Except.bind, getIndex_arr_cons, hcontent]

/-! ## Lemmas on `split` and `trim` -/

theorem splitOnNewline_ne_nil (cs : List Char) : splitOnNewline cs ≠ [] := by
  cases cs with
  | nil => simp [splitOnNewline]
  | cons c cs =>
    unfold splitOnNewline
    split
    · simp
    · split <;> simp

/-- Joining the pieces with line breaks gives the text back. -/
theorem splitOnNewline_intercalate (cs : List Char) :
    List.intercalate ['\n'] (splitOnNewline cs) = cs := by
  induction cs with
  | nil => simp [splitOnNewline, List.intercalate]
  | cons c cs ih =>
    unfold splitOnNewline
    split
    · rename_i hc
      obtain ⟨piece, rest, hrest⟩ := List.exists_cons_of_ne_nil (splitOnNewline_ne_nil cs)
      rw [hrest] at ih ⊢
      simp [List.intercalate, List.intersperse] at ih ⊢
      exact ⟨hc.symm, ih⟩
    · split
      · rename_i h; exact absurd h (splitOnNewline_ne_nil cs)
      · rename_i piece rest h
        rw [h] at ih
        cases rest with
        | nil => simp [List.intercalate, List.intersperse] at ih ⊢; exact ih
        | cons r rs => simp [List.intercalate, List.intersperse] at ih ⊢; exact ih

/-- No piece contains a line break. -/
theorem splitOnNewline_no_newline (cs : List Char) :
    ∀ piece ∈ splitOnNewline cs, '\n' ∉ piece := by
  induction cs with
  | nil => simp [splitOnNewline]
  | cons c cs ih =>
    unfold splitOnNewline
    split
    · intro piece hp
      rcases List.mem_cons.mp hp with h | h
      · subst h; simp
      · exact ih piece h
    · rename_i hc
      split
      · intro piece hp; simp at hp; subst hp; simp; exact fun h => hc h.symm
      · rename_i piece rest h
        rw [h] at ih
        intro q hq
        rcases List.mem_cons.mp hq with h1 | h1
        · subst h1
          have := ih piece (List.mem_cons_self _ _)
          simp; exact ⟨fun h => hc h.symm, this⟩
        · exact ih q (List.mem_cons_of_mem _ h1)

/-- Every character of a piece is a character of the text. -/
theorem splitOnNewline_subset (cs : List Char) :
    ∀ piece ∈ splitOnNewline cs, ∀ c ∈ piece, c ∈ cs := by
  induction cs with
  | nil => simp [splitOnNewline]
  | cons c cs ih =>
    unfold splitOnNewline
    split
    · intro piece hp x hx
      rcases List.mem_cons.mp hp with h | h
      · subst h; simp at hx
      · exact List.mem_cons_of_mem _ (ih piece h x hx)
    · split
      · intro piece hp x hx; simp at hp; subst hp; simp at hx; subst hx; simp
      · rename_i piece rest h
        rw [h] at ih
        intro q hq x hx
        rcases List.mem_cons.mp hq with h1 | h1
        · subst h1
          rcases List.mem_cons.mp hx with h2 | h2
          · subst h2; simp
          · exact List.mem_cons_of_mem _ (ih piece (List.mem_cons_self _ _) x h2)
        · exact List.mem_cons_of_mem _ (ih q (List.mem_cons_of_mem _ h1) x hx)

/-- A string trims to the empty string exactly when all its characters are white space. -/
theorem jsTrim_eq_empty_iff (s : String) :
    jsTrim s = "" ↔ ∀ c ∈ s.data, isWhiteSpace c = true := by
  have key : ((s.data.dropWhile isWhiteSpace).reverse.dropWhile isWhiteSpace).reverse = [] ↔
      ∀ c ∈ s.data, isWhiteSpace c = true := by
    rw [List.reverse_eq_nil_iff, List.dropWhile_eq_nil_iff]
    constructor
    · intro h
      have hall : ∀ x ∈ s.data.dropWhile isWhiteSpace, isWhiteSpace x = true :=
        fun x hx => h x (List.mem_reverse.mpr hx)
      have hnil : s.data.dropWhile isWhiteSpace = [] := by
        cases hd : s.data.dropWhile isWhiteSpace with
        | nil => rfl
        | cons a l =>
          have hne : s.data.dropWhile isWhiteSpace ≠ [] := by simp [hd]
          have h1 := List.head_dropWhile_not isWhiteSpace s.data hne
          have h2 := hall _ (List.head_mem hne)
          simp [h2] at h1
      exact List.dropWhile_eq_nil_iff.mp hnil
    · intro h
      have hnil : s.data.dropWhile isWhiteSpace = [] := List.dropWhile_eq_nil_iff.mpr h
      simp [hnil]
  constructor
  · intro h
    apply key.mp
    have := congrArg String.data h
    simpa [jsTrim] using this
  · intro h
    have := key.mpr h
    simp [jsTrim, this]

/-- The pieces of `jsSplitLines`, joined by line breaks, are the text. -/
theorem jsSplitLines_join (t : String) :
    List.intercalate ['\n'] ((jsSplitLines t).map String.data) = t.data := by
  have h : (jsSplitLines t).map String.data = splitOnNewline t.data := by
    simp [jsSplitLines, List.map_map, Function.comp_def]
  rw [h, splitOnNewline_intercalate]

/-- No piece of `jsSplitLines` contains a line break. -/
theorem jsSplitLines_no_newline (t : String) :
    ∀ piece ∈ jsSplitLines t, '\n' ∉ piece.data := by
  intro piece hp
  obtain ⟨cs, hcs, rfl⟩ := List.mem_map.mp hp
  exact splitOnNewline_no_newline _ cs hcs

/-- A text made of white space and line breaks only has no idea in it. -/
theorem extractIdeas_of_blank (t : String) (h : ∀ c ∈ t.data, isWhiteSpace c = true) :
    extractIdeas t = [] := by
  simp only [extractIdeas, jsSplitLines, List.filter_eq_nil_iff]
  intro piece hp
  obtain ⟨cs, hcs, rfl⟩ := List.mem_map.mp hp
  have : jsTrim (String.mk cs) = "" :=
    (jsTrim_eq_empty_iff _).mpr fun c hc => h c (splitOnNewline_subset _ cs hcs c hc)
  simp [this]

/-! ## The constant bodies, as JSON text -/

theorem errorBody_noPrompt :
    errorBody "No prompt provided." = "\x7b\"error\":\"No prompt provided.\"\x7d" := by
  decide

theorem errorBody_missingKey :
    errorBody missingKeyMessage =
      "\x7b\"error\":\"API key is not configured on the server. Please set the GOOGLE_API_KEY environment variable in your Netlify site settings.\"\x7d" := by
  decide

theorem internalError_eq :
    internalError = ⟨500, "\x7b\"error\":\"An internal server error occurred.\"\x7d"⟩ := by
  decide

/-! ## The method check and the validation of the request -/

/-- Claim C5. A request whose method is not POST gets status 405 and the plain text
`Method Not Allowed`, whatever its body, the credential and the upstream; the handler
calls nothing on the way: the body is not parsed and the upstream is not called. -/
theorem non_post_method_not_allowed (rt : Runtime) (event : Event)
    (hmethod : event.httpMethod ≠ "POST") :
    (handler rt event).response = ⟨405, "Method Not Allowed"⟩ ∧
      (handler rt event).trace = [] ∧
      parseCalls (handler rt event).trace = [] ∧
      fetchCalls (handler rt event).trace = [] := by
  simp [handler, hmethod, parseCalls, fetchCalls]

/-- A GET request with a well-formed body and a configured credential: status 405, no call. -/
theorem non_post_method_not_allowed_witness :
    (handler (sampleRuntime (some "secret") (okReply "not json"))
        ⟨"GET", some "\x7b\"prompt\":\"cats\"\x7d"⟩).response = ⟨405, "Method Not Allowed"⟩ ∧
      (handler (sampleRuntime (some "secret") (okReply "not json"))
        ⟨"GET", some "\x7b\"prompt\":\"cats\"\x7d"⟩).trace = [] ∧
      parseCalls (handler (sampleRuntime (some "secret") (okReply "not json"))
        ⟨"GET", some "\x7b\"prompt\":\"cats\"\x7d"⟩).trace = [] ∧
      fetchCalls (handler (sampleRuntime (some "secret") (okReply "not json"))
        ⟨"GET", some "\x7b\"prompt\":\"cats\"\x7d"⟩).trace = [] :=
  non_post_method_not_allowed _ _ (by decide)

/-- Claim C1, as the code has it. For a POST request whose body parses to a value other
than `null` and whose `prompt` is absent or empty (any falsy value: `undefined`, `null`,
`false`, zero, `NaN`, the empty string), the handler answers status 400 with the body
`error: No prompt provided.` and calls nothing but the parser. A body that fails to
parse is not answered that way: the exception reaches the `catch` block, which answers
status 500 with `error: An internal server error occurred.`. -/
theorem missing_prompt_response (rt : Runtime) (event : Event)
    (hmethod : event.httpMethod = "POST") :
    (∀ parsed prompt, rt.jsonParse (event.body.getD "null") = .ok parsed →
      parsed.getProp "prompt" = .ok prompt → prompt.toBoolean = false →
      handler rt event =
        ⟨⟨400, "\x7b\"error\":\"No prompt provided.\"\x7d"⟩,
          [.jsonParse (event.body.getD "null")]⟩) ∧
    (∀ e, rt.jsonParse (event.body.getD "null") = .error e →
      handler rt event =
        ⟨⟨500, "\x7b\"error\":\"An internal server error occurred.\"\x7d"⟩,
          [.jsonParse (event.body.getD "null"), .logFunctionError e]⟩) := by
  constructor
  · intro parsed prompt hparse hprompt hfalsy
    simp [handler, hmethod, tryBlock, bind, Run.bind, Run.jsonParse, Run.lift, hparse, hprompt,
      hfalsy, pure, errorBody_noPrompt]
  · intro e hparse
    simp [handler, hmethod, tryBlock, bind, Run.bind, Run.jsonParse, hparse, internalError_eq]

/-- The bodies with no `prompt` and with an empty `prompt`: status 400, the parser called once. -/
theorem missing_prompt_response_witness :
    handler (sampleRuntime (some "secret") (okReply "not json")) (post "\x7b\x7d") =
        ⟨⟨400, "\x7b\"error\":\"No prompt provided.\"\x7d"⟩, [.jsonParse "\x7b\x7d"]⟩ ∧
      handler (sampleRuntime (some "secret") (okReply "not json"))
          (post "\x7b\"prompt\":\"\"\x7d") =
        ⟨⟨400, "\x7b\"error\":\"No prompt provided.\"\x7d"⟩,
          [.jsonParse "\x7b\"prompt\":\"\"\x7d"]⟩ :=
  ⟨(missing_prompt_response (sampleRuntime (some "secret") (okReply "not json"))
      (post "\x7b\x7d") rfl).1 (.obj []) .undefined rfl rfl rfl,
   (missing_prompt_response (sampleRuntime (some "secret") (okReply "not json"))
      (post "\x7b\"prompt\":\"\"\x7d") rfl).1 (.obj [("prompt", .str "")]) (.str "") rfl rfl rfl⟩

/-- Claim C1 fails as stated. The POST body `not json` does not parse; the handler
answers status 500 with the internal error, not status 400 with `No prompt provided.`.
The same happens for the body `null`, which parses but has no property to read. -/
theorem unparsable_body_is_internal_error :
    sampleParse "not json" = .error .syntaxError ∧
      (handler (sampleRuntime (some "secret") (okReply "not json")) (post "not json")).response =
        ⟨500, "\x7b\"error\":\"An internal server error occurred.\"\x7d"⟩ ∧
      (handler (sampleRuntime (some "secret") (okReply "not json")) (post "null")).response =
        ⟨500, "\x7b\"error\":\"An internal server error occurred.\"\x7d"⟩ :=
  ⟨rfl, by decide, by decide⟩

/-- Claim C3. For a POST request with a non-empty (truthy) prompt, when the credential is
unset (or set to the empty string, which the check treats alike) the handler answers
status 500 with the configuration message and makes no outbound call: the parser is the
only thing it called. -/
theorem missing_credential_response (rt : Runtime) (event : Event) (parsed prompt : JSValue)
    (hmethod : event.httpMethod = "POST")
    (hparse : rt.jsonParse (event.body.getD "null") = .ok parsed)
    (hprompt : parsed.getProp "prompt" = .ok prompt) (htruthy : prompt.toBoolean = true)
    (hkey : rt.apiKey = none ∨ rt.apiKey = some "") :
    (handler rt event).response =
        ⟨500, "\x7b\"error\":\"API key is not configured on the server. Please set the GOOGLE_API_KEY environment variable in your Netlify site settings.\"\x7d"⟩ ∧
      (handler rt event).trace = [.jsonParse (event.body.getD "null")] ∧
      fetchCalls (handler rt event).trace = [] := by
  have hfalsy : (envValue rt.apiKey).toBoolean = false := by
    rcases hkey with h | h <;> simp [h, envValue, JSValue.toBoolean]
  simp [handler, hmethod, tryBlock, bind, Run.bind, Run.jsonParse, Run.lift, hparse, hprompt,
    htruthy, hfalsy, pure, errorBody_missingKey, fetchCalls]

/-- A request for `cats` with the credential unset: status 500, the upstream not called. -/
theorem missing_credential_response_witness :
    (handler (sampleRuntime none (okReply "not json"))
        (post "\x7b\"prompt\":\"cats\"\x7d")).response =
        ⟨500, "\x7b\"error\":\"API key is not configured on the server. Please set the GOOGLE_API_KEY environment variable in your Netlify site settings.\"\x7d"⟩ ∧
      (handler (sampleRuntime none (okReply "not json"))
        (post "\x7b\"prompt\":\"cats\"\x7d")).trace = [.jsonParse "\x7b\"prompt\":\"cats\"\x7d"] ∧
      fetchCalls (handler (sampleRuntime none (okReply "not json"))
        (post "\x7b\"prompt\":\"cats\"\x7d")).trace = [] :=
  missing_credential_response (sampleRuntime none (okReply "not json"))
    (post "\x7b\"prompt\":\"cats\"\x7d") (.obj [("prompt", .str "cats")]) (.str "cats")
    rfl rfl rfl rfl (Or.inl rfl)

/-! ## The upstream call -/

/-- The translation of a reply calls neither the parser of the handler nor the upstream. -/
theorem translateReply_trace (rt : Runtime) (reply : ApiResponse) :
    (translateReply rt reply).trace = [] ∨
      ∃ b, (translateReply rt reply).trace = [.logApiError b] := by
  cases hok : reply.ok with
  | false =>
    cases htext : reply.text with
    | error e => left; simp [translateReply, hok, htext, bind, Run.bind, Run.lift]
    | ok b => right; exact ⟨b, by rw [translateReply_failure hok htext]⟩
  | true =>
    left
    cases htext : reply.text with
    | error e => simp [translateReply, hok, htext, bind, Run.bind, Run.lift, Except.bind]
    | ok body =>
      cases hjson : rt.jsonParse body with
      | error e => simp [translateReply, hok, htext, hjson, bind, Run.bind, Run.lift, Except.bind]
      | ok data => rw [translateReply_success hok htext hjson]

/-- The calls of the handler for a request that passes validation: the parser, the
upstream once, and after that nothing but logging. -/
theorem trace_of_passes {rt : Runtime} {event : Event} {key promptText : String}
    (h : PassesValidation rt event key promptText) :
    ∃ logs, (handler rt event).trace =
        .jsonParse (event.body.getD "null") :: .fetch (upstreamCall key promptText) :: logs ∧
      fetchCalls logs = [] ∧ parseCalls logs = [] := by
  have hpost : event.httpMethod = "POST" := h.1
  obtain ⟨parsed, _, hparse, _⟩ := h.2.1
  cases hfetch : rt.fetch (upstreamCall key promptText) with
  | error e =>
    refine ⟨[.logFunctionError e], ?_, rfl, rfl⟩
    simp [handler, tryBlock_of_passes h, hpost, Run.bind, Run.jsonParse, Run.fetch, hfetch, hparse]
  | ok reply =>
    rw [handler_of_passes h hfetch]
    rcases translateReply_trace rt reply with ht | ⟨b, ht⟩ <;>
      cases hres : (translateReply rt reply).result <;>
      simp [ht, fetchCalls, parseCalls]

/-- Claim C4. When the upstream answers the call of a valid request (a POST with a
prompt, the credential configured) with a non-success status `s` and the body text `b`,
the handler answers with the same status `s` and the body
`error: Google AI API error: ` followed by `b`. With `s = 503` and `b = quota exceeded`
that is status 503 and an error that contains `quota exceeded`. -/
theorem upstream_failure_is_mirrored (rt : Runtime) (event : Event) (key promptText : String)
    (reply : ApiResponse) (b : String) (hpass : PassesValidation rt event key promptText)
    (hfetch : rt.fetch (upstreamCall key promptText) = .ok reply)
    (hok : reply.ok = false) (htext : reply.text = .ok b) :
    (handler rt event).response =
        ⟨reply.status, stringifyObject [("error", .str ("Google AI API error: " ++ b))]⟩ ∧
      (reply.status = 503 → b = "quota exceeded" →
        (handler rt event).response =
          ⟨503, "\x7b\"error\":\"Google AI API error: quota exceeded\"\x7d"⟩) := by
  have hmain : (handler rt event).response =
      ⟨reply.status, stringifyObject [("error", .str ("Google AI API error: " ++ b))]⟩ := by
    rw [handler_of_passes hpass hfetch, translateReply_failure hok htext]
    rfl
  refine ⟨hmain, ?_⟩
  intro hs hb
  rw [hmain, hs, hb]
  decide

/-- An upstream that answers 503 with the text `quota exceeded`: status 503, the text inside the error. -/
theorem upstream_failure_is_mirrored_witness :
    (handler (sampleRuntime (some "secret") (.ok ⟨false, 503, .ok "quota exceeded"⟩))
        (post "\x7b\"prompt\":\"cats\"\x7d")).response =
      ⟨503, "\x7b\"error\":\"Google AI API error: quota exceeded\"\x7d"⟩ :=
  (upstream_failure_is_mirrored
    (sampleRuntime (some "secret") (.ok ⟨false, 503, .ok "quota exceeded"⟩))
    (post "\x7b\"prompt\":\"cats\"\x7d") "secret" "cats" ⟨false, 503, .ok "quota exceeded"⟩
    "quota exceeded"
    ⟨rfl, ⟨.obj [("prompt", .str "cats")], .str "cats", rfl, rfl, rfl, rfl⟩, rfl, by decide⟩
    rfl rfl rfl).2 rfl rfl

/-- A POST request with a non-empty string prompt and a configured credential passes
validation, and the prompt renders as itself. -/
theorem passes_of_string_prompt {rt : Runtime} {event : Event} {parsed : JSValue}
    {p key : String} (hmethod : event.httpMethod = "POST")
    (hparse : rt.jsonParse (event.body.getD "null") = .ok parsed)
    (hprompt : parsed.getProp "prompt" = .ok (.str p)) (hp : p ≠ "")
    (hkey : rt.apiKey = some key) (hk : key ≠ "") : PassesValidation rt event key p :=
  ⟨hmethod, ⟨parsed, .str p, hparse, hprompt, by simp [JSValue.toBoolean, hp], rfl⟩, hkey, hk⟩

/-- The serialisation of the payload of lines 39-43. -/
theorem stringify_payload (text : String) :
    stringifyObject [("contents", .arr [.obj [("parts", .arr [.obj [("text", .str text)]])]])] =
      "\x7b\"contents\":[\x7b\"parts\":[\x7b\"text\":" ++ quoteJSONString text ++
        "\x7d]\x7d]\x7d" := by
  have h1 : quoteJSONString "contents" = "\"contents\"" := by decide
  have h2 : quoteJSONString "parts" = "\"parts\"" := by decide
  have h3 : quoteJSONString "text" = "\"text\"" := by decide
  simp only [stringifyObject, JSValue.serializeProperties, JSValue.serialize,
    JSValue.serializeElements, Option.getD, h1, h2, h3, String.intercalate, String.intercalate.go]
  apply String.ext
  simp [String.data_append]

/-- Claim C10. For every prompt string `p` that passes validation (it is not empty; the
request is a POST and the credential is configured, so that a payload is sent at all),
the handler makes exactly one outbound call, whose body is the serialisation of
`contents: [ parts: [ text: T ] ]` where `T` is the first part of the template, then `p`
unaltered, then the rest of the template. Quotation marks in `p` are kept: they are
escaped by the JSON serialisation of the body only. -/
theorem payload_embeds_prompt_verbatim (rt : Runtime) (event : Event) (parsed : JSValue)
    (p key : String) (hmethod : event.httpMethod = "POST")
    (hparse : rt.jsonParse (event.body.getD "null") = .ok parsed)
    (hprompt : parsed.getProp "prompt" = .ok (.str p)) (hp : p ≠ "")
    (hkey : rt.apiKey = some key) (hk : key ≠ "") :
    ∃ request, fetchCalls (handler rt event).trace = [request] ∧
      request.body = stringifyObject [("contents", .arr [.obj [("parts", .arr [.obj [("text",
        .str ("Generate a numbered list of 5 creative and unique ideas for the following topic: \""
          ++ p ++ "\". Return only the numbered list, without any introductory text."))]])]])] ∧
      request.body = "\x7b\"contents\":[\x7b\"parts\":[\x7b\"text\":" ++ quoteJSONString
        ("Generate a numbered list of 5 creative and unique ideas for the following topic: \""
          ++ p ++ "\". Return only the numbered list, without any introductory text.") ++
        "\x7d]\x7d]\x7d" := by
  have hpass := passes_of_string_prompt hmethod hparse hprompt hp hkey hk
  obtain ⟨logs, htrace, hlogs, _⟩ := trace_of_passes hpass
  refine ⟨upstreamCall key p, ?_, ?_, ?_⟩
  · simp [htrace, fetchCalls, hlogs]
  · rfl
  · exact stringify_payload _

/-- A prompt with quotation marks: one outbound call, the prompt inside the template as it came. -/
theorem payload_embeds_prompt_verbatim_witness :
    ∃ request,
      fetchCalls (handler (sampleRuntime (some "secret") (okReply "not json"))
        (post "\x7b\"prompt\":\"say \\\"hi\\\"\"\x7d")).trace = [request] ∧
      request.body = stringifyObject [("contents", .arr [.obj [("parts", .arr [.obj [("text",
        .str ("Generate a numbered list of 5 creative and unique ideas for the following topic: \""
          ++ "say \"hi\"" ++
          "\". Return only the numbered list, without any introductory text."))]])]])] ∧
      request.body = "\x7b\"contents\":[\x7b\"parts\":[\x7b\"text\":" ++ quoteJSONString
        ("Generate a numbered list of 5 creative and unique ideas for the following topic: \""
          ++ "say \"hi\"" ++
          "\". Return only the numbered list, without any introductory text.") ++
        "\x7d]\x7d]\x7d" :=
  payload_embeds_prompt_verbatim (sampleRuntime (some "secret") (okReply "not json"))
    (post "\x7b\"prompt\":\"say \\\"hi\\\"\"\x7d") (.obj [("prompt", .str "say \"hi\"")])
    "say \"hi\"" "secret" rfl rfl rfl (by decide) rfl (by decide)

/-- Claim C8, as the code has it. For a POST request the handler calls the upstream only
if the body parsed and its `prompt` is truthy; a request whose `prompt` is falsy (absent,
`null`, `false`, zero, `NaN` or the empty string) is answered with status 400 before any
outbound call. The check is on truthiness, not on the type: a prompt need not be a
string to pass it. -/
theorem outbound_call_only_for_truthy_prompt (rt : Runtime) (event : Event)
    (hmethod : event.httpMethod = "POST") :
    (fetchCalls (handler rt event).trace ≠ [] →
      ∃ parsed prompt, rt.jsonParse (event.body.getD "null") = .ok parsed ∧
        parsed.getProp "prompt" = .ok prompt ∧ prompt.toBoolean = true) ∧
    (∀ parsed prompt, rt.jsonParse (event.body.getD "null") = .ok parsed →
      parsed.getProp "prompt" = .ok prompt → prompt.toBoolean = false →
      (handler rt event).response = ⟨400, "\x7b\"error\":\"No prompt provided.\"\x7d"⟩ ∧
        fetchCalls (handler rt event).trace = []) := by
  constructor
  · intro hcalls
    cases hparse : rt.jsonParse (event.body.getD "null") with
    | error e =>
      exfalso; apply hcalls
      simp [handler, hmethod, tryBlock, bind, Run.bind, Run.jsonParse, hparse, fetchCalls]
    | ok parsed =>
      cases hprompt : parsed.getProp "prompt" with
      | error e =>
        exfalso; apply hcalls
        simp [handler, hmethod, tryBlock, bind, Run.bind, Run.jsonParse, Run.lift, hparse,
          hprompt, fetchCalls]
      | ok prompt =>
        cases htruthy : prompt.toBoolean with
        | false =>
          exfalso; apply hcalls
          simp [handler, hmethod, tryBlock, bind, Run.bind, Run.jsonParse, Run.lift, hparse,
            hprompt, htruthy, pure, fetchCalls]
        | true => exact ⟨parsed, prompt, rfl, hprompt, htruthy⟩
  · intro parsed prompt hparse hprompt hfalsy
    simp [handler, hmethod, tryBlock, bind, Run.bind, Run.jsonParse, Run.lift, hparse, hprompt,
      hfalsy, pure, errorBody_noPrompt, fetchCalls]

/-- A request with an empty `prompt`: status 400, the upstream not called. -/
theorem outbound_call_only_for_truthy_prompt_witness :
    (handler (sampleRuntime (some "secret") (okReply "not json"))
        (post "\x7b\"prompt\":\"\"\x7d")).response =
        ⟨400, "\x7b\"error\":\"No prompt provided.\"\x7d"⟩ ∧
      fetchCalls (handler (sampleRuntime (some "secret") (okReply "not json"))
        (post "\x7b\"prompt\":\"\"\x7d")).trace = [] :=
  (outbound_call_only_for_truthy_prompt (sampleRuntime (some "secret") (okReply "not json"))
    (post "\x7b\"prompt\":\"\"\x7d") rfl).2 (.obj [("prompt", .str "")]) (.str "") rfl rfl rfl

/-- Claim C8 fails as stated. The POST body with `prompt` set to the boolean `true`
parses to a prompt that is no string, yet the handler does not reject it: it calls the
upstream, with the prompt rendered as `true` inside the template. -/
theorem boolean_prompt_reaches_upstream :
    sampleParse "\x7b\"prompt\":true\x7d" = .ok (.obj [("prompt", .bool true)]) ∧
      fetchCalls (handler (sampleRuntime (some "secret") (okReply "not json"))
        (post "\x7b\"prompt\":true\x7d")).trace =
        [{ url := "https://generativelanguage.googleapis.com/v1beta/models/gemini-2.0-flash:generateContent?key=secret"
           method := "POST"
           headers := [("Content-Type", "application/json")]
           body := "\x7b\"contents\":[\x7b\"parts\":[\x7b\"text\":\"Generate a numbered list of 5 creative and unique ideas for the following topic: \\\"true\\\". Return only the numbered list, without any introductory text.\"\x7d]\x7d]\x7d" }] :=
  ⟨rfl, by decide⟩

/-! ## The `catch` block -/

/-- Claim C9. The handler has a response for every request, credential and upstream: it
is a total function, and the response is the one of the method check, the one the `try`
block returns, or, whenever the `try` block throws, status 500 with
`error: An internal server error occurred.`. In particular that is the response when the
body does not parse, when `fetch` rejects (a network failure), when the body of the
upstream reply cannot be read, and when a successful reply does not decode. -/
theorem handler_always_responds (rt : Runtime) (event : Event) :
    (event.httpMethod ≠ "POST" →
      (handler rt event).response = ⟨405, "Method Not Allowed"⟩) ∧
    (event.httpMethod = "POST" → ∀ response, (tryBlock rt event).result = .ok response →
      (handler rt event).response = response) ∧
    (event.httpMethod = "POST" → ∀ e, (tryBlock rt event).result = .error e →
      (handler rt event).response =
        ⟨500, "\x7b\"error\":\"An internal server error occurred.\"\x7d"⟩) ∧
    (event.httpMethod = "POST" → ∀ e, rt.jsonParse (event.body.getD "null") = .error e →
      (handler rt event).response =
        ⟨500, "\x7b\"error\":\"An internal server error occurred.\"\x7d"⟩) ∧
    (∀ key promptText e, PassesValidation rt event key promptText →
      rt.fetch (upstreamCall key promptText) = .error e →
      (handler rt event).response =
        ⟨500, "\x7b\"error\":\"An internal server error occurred.\"\x7d"⟩) ∧
    (∀ key promptText reply e, PassesValidation rt event key promptText →
      rt.fetch (upstreamCall key promptText) = .ok reply → reply.text = .error e →
      (handler rt event).response =
        ⟨500, "\x7b\"error\":\"An internal server error occurred.\"\x7d"⟩) ∧
    (∀ key promptText reply body e, PassesValidation rt event key promptText →
      rt.fetch (upstreamCall key promptText) = .ok reply → reply.ok = true →
      reply.text = .ok body → rt.jsonParse body = .error e →
      (handler rt event).response =
        ⟨500, "\x7b\"error\":\"An internal server error occurred.\"\x7d"⟩) := by
  have hcatch : event.httpMethod = "POST" → ∀ e, (tryBlock rt event).result = .error e →
      (handler rt event).response =
        ⟨500, "\x7b\"error\":\"An internal server error occurred.\"\x7d"⟩ := by
    intro hmethod e he
    simp [handler, hmethod, he, internalError_eq]
  refine ⟨?_, ?_, hcatch, ?_, ?_, ?_, ?_⟩
  · intro hmethod
    simp [handler, hmethod]
  · intro hmethod response hres
    simp [handler, hmethod, hres]
  · intro hmethod e hparse
    apply hcatch hmethod e
    simp [tryBlock, bind, Run.bind, Run.jsonParse, hparse]
  · intro key promptText e hpass hfetch
    obtain ⟨parsed, _, hparse, _⟩ := hpass.2.1
    apply hcatch hpass.1 e
    simp [tryBlock_of_passes hpass, Run.bind, Run.jsonParse, Run.fetch, hfetch, hparse]
  · intro key promptText reply e hpass hfetch htext
    rw [handler_of_passes hpass hfetch]
    have hres : (translateReply rt reply).result = .error e := by
      cases hok : reply.ok <;>
        simp [translateReply, hok, htext, bind, Run.bind, Run.lift, Except.bind]
    simp [hres, internalError_eq]
  · intro key promptText reply body e hpass hfetch hok htext hjson
    rw [handler_of_passes hpass hfetch]
    have hres : (translateReply rt reply).result = .error e := by
      simp [translateReply, hok, htext, hjson, bind, Run.bind, Run.lift, Except.bind]
    simp [hres, internalError_eq]

/-- A rejected `fetch` and a successful reply that is no JSON: status 500 both times. -/
theorem handler_always_responds_witness :
    (handler (sampleRuntime (some "secret") (.error .fetchError))
        (post "\x7b\"prompt\":\"cats\"\x7d")).response =
        ⟨500, "\x7b\"error\":\"An internal server error occurred.\"\x7d"⟩ ∧
      (handler (sampleRuntime (some "secret") (okReply "not json"))
        (post "\x7b\"prompt\":\"cats\"\x7d")).response =
        ⟨500, "\x7b\"error\":\"An internal server error occurred.\"\x7d"⟩ :=
  ⟨(handler_always_responds (sampleRuntime (some "secret") (.error .fetchError))
      (post "\x7b\"prompt\":\"cats\"\x7d")).2.2.2.2.1 "secret" "cats" .fetchError
      ⟨rfl, ⟨.obj [("prompt", .str "cats")], .str "cats", rfl, rfl, rfl, rfl⟩, rfl, by decide⟩
      rfl,
   (handler_always_responds (sampleRuntime (some "secret") (okReply "not json"))
      (post "\x7b\"prompt\":\"cats\"\x7d")).2.2.2.2.2.2 "secret" "cats"
      ⟨true, 200, .ok "not json"⟩ "not json" .syntaxError
      ⟨rfl, ⟨.obj [("prompt", .str "cats")], .str "cats", rfl, rfl, rfl, rfl⟩, rfl, by decide⟩
      rfl rfl rfl rfl⟩

/-! ## The translation of a successful reply -/

/-- A content whose `parts[0].text` is a string is an object, hence truthy. -/
theorem content_truthy_of_text {content parts part : JSValue} {t : String}
    (hparts : content.getProp "parts" = .ok parts) (hpart : parts.getIndex 0 = .ok part)
    (htext : part.getProp "text" = .ok (.str t)) : content.toBoolean = true := by
  obtain ⟨partProps, rfl⟩ := getProp_isObject htext (by simp) (by simp)
  have hne : parts ≠ .undefined := by
    rintro rfl; simp [JSValue.getIndex] at hpart
  have hnum : ∀ n, parts ≠ .num n := by
    rintro n rfl; simp [JSValue.getIndex] at hpart
  obtain ⟨contentProps, rfl⟩ := getProp_isObject hparts hne hnum
  rfl

/-- The response to a reply whose first candidate has a truthy content, in terms of the
expression of line 62. -/
theorem response_of_content {rt : Runtime} {event : Event} {key promptText : String}
    {data first content : JSValue} {others : List JSValue}
    (hpass : PassesValidation rt event key promptText)
    (hreply : RepliesWith rt (upstreamCall key promptText) data)
    (hcands : data.getProp "candidates" = .ok (.arr (first :: others)))
    (hcontent : first.getProp "content" = .ok content) (htruthy : content.toBoolean = true) :
    (handler rt event).response =
      match (do
        let parts ← content.getProp "parts"
        let part ← parts.getIndex 0
        let text ← part.getProp "text"
        splitText text) with
      | .ok ideas => ⟨200, stringifyObject [("ideas", .arr (ideas.map .str))]⟩
      | .error _ => internalError := by
  rw [handler_of_reply hpass hreply, hasCandidateContent_of_first hcands hcontent,
    firstPartText_of_first hcands hcontent, htruthy]
  cases h1 : content.getProp "parts" with
  | error e => simp [bind, Except.bind]
  | ok parts =>
    cases h2 : parts.getIndex 0 with
    | error e => simp [bind, Except.bind, h2]
    | ok part =>
      cases h3 : part.getProp "text" with
      | error e => simp [bind, Except.bind, h2, h3]
      | ok text =>
        cases h4 : splitText text <;> simp [bind, Except.bind, h2, h3, h4, pure, Except.pure]

/-- Claim C2. When the upstream answers the call of a valid request with a success
status and a body whose first candidate's content has a first part with the text `t`,
the handler answers status 200 and `ideas` is the list of the pieces of `t` between its
line breaks that are not empty once trimmed, in their order and unmodified. The text
`1. Idea A`, `2. Idea B`, an empty line, `3. Idea C` gives these three ideas, and a text
of white space and line breaks only gives status 200 with an empty list. -/
theorem ideas_from_candidate_text (rt : Runtime) (event : Event) (key promptText : String)
    (data first content parts part : JSValue) (others : List JSValue) (t : String)
    (hpass : PassesValidation rt event key promptText)
    (hreply : RepliesWith rt (upstreamCall key promptText) data)
    (hcands : data.getProp "candidates" = .ok (.arr (first :: others)))
    (hcontent : first.getProp "content" = .ok content)
    (hparts : content.getProp "parts" = .ok parts)
    (hpart : parts.getIndex 0 = .ok part)
    (htext : part.getProp "text" = .ok (.str t)) :
    (handler rt event).response =
        ⟨200, stringifyObject [("ideas",
          .arr (((jsSplitLines t).filter fun piece => jsTrim piece != "").map .str))]⟩ ∧
      (t = "1. Idea A\n2. Idea B\n\n3. Idea C" →
        (handler rt event).response =
          ⟨200, "\x7b\"ideas\":[\"1. Idea A\",\"2. Idea B\",\"3. Idea C\"]\x7d"⟩) ∧
      ((∀ c ∈ t.data, isWhiteSpace c = true) →
        (handler rt event).response = ⟨200, "\x7b\"ideas\":[]\x7d"⟩) := by
  have htruthy := content_truthy_of_text hparts hpart htext
  have hmain : (handler rt event).response =
      ⟨200, stringifyObject [("ideas", .arr ((extractIdeas t).map .str))]⟩ := by
    rw [response_of_content hpass hreply hcands hcontent htruthy]
    simp [hparts, hpart, htext, bind, Except.bind, splitText]
  refine ⟨hmain, ?_, ?_⟩
  · intro ht
    rw [hmain, ht]
    decide
  · intro hblank
    rw [hmain, extractIdeas_of_blank t hblank]
    decide

/-- The reply with three ideas and an empty line between them: status 200 and the three ideas. -/
theorem ideas_from_candidate_text_witness :
    (handler (sampleRuntime (some "secret") (okReply
        "\x7b\"candidates\":[\x7b\"content\":\x7b\"parts\":[\x7b\"text\":\"1. Idea A\\n2. Idea B\\n\\n3. Idea C\"\x7d]\x7d\x7d]\x7d"))
        (post "\x7b\"prompt\":\"cats\"\x7d")).response =
      ⟨200, "\x7b\"ideas\":[\"1. Idea A\",\"2. Idea B\",\"3. Idea C\"]\x7d"⟩ :=
  (ideas_from_candidate_text
    (sampleRuntime (some "secret") (okReply
      "\x7b\"candidates\":[\x7b\"content\":\x7b\"parts\":[\x7b\"text\":\"1. Idea A\\n2. Idea B\\n\\n3. Idea C\"\x7d]\x7d\x7d]\x7d"))
    (post "\x7b\"prompt\":\"cats\"\x7d") "secret" "cats"
    (.obj [("candidates", .arr [.obj [("content",
      .obj [("parts", .arr [.obj [("text", .str "1. Idea A\n2. Idea B\n\n3. Idea C")]])])]])])
    (.obj [("content", .obj [("parts", .arr [.obj [("text",
      .str "1. Idea A\n2. Idea B\n\n3. Idea C")]])])])
    (.obj [("parts", .arr [.obj [("text", .str "1. Idea A\n2. Idea B\n\n3. Idea C")]])])
    (.arr [.obj [("text", .str "1. Idea A\n2. Idea B\n\n3. Idea C")]])
    (.obj [("text", .str "1. Idea A\n2. Idea B\n\n3. Idea C")])
    [] "1. Idea A\n2. Idea B\n\n3. Idea C"
    ⟨rfl, ⟨.obj [("prompt", .str "cats")], .str "cats", rfl, rfl, rfl, rfl⟩, rfl, by decide⟩
    ⟨_, _, rfl, rfl, rfl, rfl⟩ rfl rfl rfl rfl rfl).2.1 rfl

/-- Claim C7, as the code has it. When the upstream answers the call of a valid request
with a success status and a body whose candidate list is not empty and whose first
candidate has a (truthy) content, the handler answers status 200 with an `ideas` body
exactly when `parts[0].text` of that content is a string. For any other shape of the
content the access of line 62 or the call of `split` throws, and the handler answers
status 500 with `error: An internal server error occurred.`. -/
theorem candidate_content_response (rt : Runtime) (event : Event) (key promptText : String)
    (data first content : JSValue) (others : List JSValue)
    (hpass : PassesValidation rt event key promptText)
    (hreply : RepliesWith rt (upstreamCall key promptText) data)
    (hcands : data.getProp "candidates" = .ok (.arr (first :: others)))
    (hcontent : first.getProp "content" = .ok content) (htruthy : content.toBoolean = true) :
    (∀ parts part t, content.getProp "parts" = .ok parts → parts.getIndex 0 = .ok part →
      part.getProp "text" = .ok (.str t) →
      (handler rt event).response =
        ⟨200, stringifyObject [("ideas",
          .arr (((jsSplitLines t).filter fun piece => jsTrim piece != "").map .str))]⟩) ∧
    ((∀ parts part t, ¬ (content.getProp "parts" = .ok parts ∧ parts.getIndex 0 = .ok part ∧
        part.getProp "text" = .ok (.str t))) →
      (handler rt event).response =
        ⟨500, "\x7b\"error\":\"An internal server error occurred.\"\x7d"⟩) := by
  rw [response_of_content hpass hreply hcands hcontent htruthy]
  constructor
  · intro parts part t hparts hpart htext
    simp [hparts, hpart, htext, bind, Except.bind, splitText, extractIdeas]
  · intro hnone
    cases h1 : content.getProp "parts" with
    | error e => simp [bind, Except.bind, internalError_eq]
    | ok parts =>
      cases h2 : parts.getIndex 0 with
      | error e => simp [bind, Except.bind, h2, internalError_eq]
      | ok part =>
        cases h3 : part.getProp "text" with
        | error e => simp [bind, Except.bind, h2, h3, internalError_eq]
        | ok text =>
          cases text with
          | str t => exact absurd ⟨h1, h2, h3⟩ (hnone parts part t)
          | _ => simp [bind, Except.bind, h2, h3, splitText, internalError_eq]

/-- The reply whose first candidate has the empty object as content: status 500. -/
theorem candidate_content_response_witness :
    (handler (sampleRuntime (some "secret") (okReply
        "\x7b\"candidates\":[\x7b\"content\":\x7b\x7d\x7d]\x7d"))
        (post "\x7b\"prompt\":\"cats\"\x7d")).response =
      ⟨500, "\x7b\"error\":\"An internal server error occurred.\"\x7d"⟩ :=
  (candidate_content_response
    (sampleRuntime (some "secret") (okReply
      "\x7b\"candidates\":[\x7b\"content\":\x7b\x7d\x7d]\x7d"))
    (post "\x7b\"prompt\":\"cats\"\x7d") "secret" "cats"
    (.obj [("candidates", .arr [.obj [("content", .obj [])]])])
    (.obj [("content", .obj [])]) (.obj []) []
    ⟨rfl, ⟨.obj [("prompt", .str "cats")], .str "cats", rfl, rfl, rfl, rfl⟩, rfl, by decide⟩
    ⟨_, _, rfl, rfl, rfl, rfl⟩ rfl rfl rfl).2
    (by
      intro parts part t h
      have h1 : parts = .undefined := by
        have := h.1
        simp [JSValue.getProp, JSValue.getOwn] at this
        exact this.symm
      have h2 := h.2.1
      rw [h1] at h2
      simp [JSValue.getIndex] at h2)

/-- Claim C7 fails as stated. The upstream body whose only candidate has the empty
object as content is a successful reply with a non-empty candidate list whose first
candidate has content; the handler answers status 500, not status 200 with ideas. -/
theorem content_without_parts_is_internal_error :
    sampleParse "\x7b\"candidates\":[\x7b\"content\":\x7b\x7d\x7d]\x7d" =
        .ok (.obj [("candidates", .arr [.obj [("content", .obj [])]])]) ∧
      (JSValue.obj []).toBoolean = true ∧
      (handler (sampleRuntime (some "secret") (okReply
        "\x7b\"candidates\":[\x7b\"content\":\x7b\x7d\x7d]\x7d"))
        (post "\x7b\"prompt\":\"cats\"\x7d")).response =
      ⟨500, "\x7b\"error\":\"An internal server error occurred.\"\x7d"⟩ :=
  ⟨rfl, rfl, by decide⟩

/-- Claim C6, as the code has it. When the upstream answers the call of a valid request
with a success status and a body that has no candidate (`candidates` absent, `null` or
empty) and carries a prompt-feedback block reason that is a non-empty string `r`, the
handler answers status 400 with the body `error: Request blocked by safety settings: `
followed by `r`; with `r = SAFETY` the error contains `SAFETY`. -/
theorem safety_block_response (rt : Runtime) (event : Event) (key promptText : String)
    (data candidates feedback : JSValue) (r : String)
    (hpass : PassesValidation rt event key promptText)
    (hreply : RepliesWith rt (upstreamCall key promptText) data)
    (hcands : data.getProp "candidates" = .ok candidates)
    (hnone : candidates = .undefined ∨ candidates = .null ∨ candidates = .arr [])
    (hfeedback : data.getProp "promptFeedback" = .ok feedback)
    (hreason : feedback.getProp "blockReason" = .ok (.str r)) (hr : r ≠ "") :
    (handler rt event).response =
        ⟨400, stringifyObject [("error", .str ("Request blocked by safety settings: " ++ r))]⟩ ∧
      (r = "SAFETY" →
        (handler rt event).response =
          ⟨400, "\x7b\"error\":\"Request blocked by safety settings: SAFETY\"\x7d"⟩) := by
  obtain ⟨feedbackProps, rfl⟩ := getProp_isObject hreason (by simp) (by simp)
  have hft : (JSValue.obj feedbackProps).toBoolean = true := rfl
  have hrt : (JSValue.str r).toBoolean = true := by simp [JSValue.toBoolean, hr]
  have hrs : (JSValue.str r).toStr = .ok r := rfl
  have hmain : (handler rt event).response =
      ⟨400, stringifyObject [("error", .str ("Request blocked by safety settings: " ++ r))]⟩ := by
    rw [handler_of_reply hpass hreply, hasCandidateContent_of_none hcands hnone]
    simp [bind, Except.bind, withoutContent, hfeedback, hft, hreason, hrt, hrs, pure,
      Except.pure, errorBody]
  refine ⟨hmain, ?_⟩
  intro hsafety
  rw [hmain, hsafety]
  decide

/-- The reply blocked for `SAFETY`: status 400 and the reason inside the error. -/
theorem safety_block_response_witness :
    (handler (sampleRuntime (some "secret") (okReply
        "\x7b\"promptFeedback\":\x7b\"blockReason\":\"SAFETY\"\x7d\x7d"))
        (post "\x7b\"prompt\":\"cats\"\x7d")).response =
      ⟨400, "\x7b\"error\":\"Request blocked by safety settings: SAFETY\"\x7d"⟩ :=
  (safety_block_response
    (sampleRuntime (some "secret") (okReply
      "\x7b\"promptFeedback\":\x7b\"blockReason\":\"SAFETY\"\x7d\x7d"))
    (post "\x7b\"prompt\":\"cats\"\x7d") "secret" "cats"
    (.obj [("promptFeedback", .obj [("blockReason", .str "SAFETY")])]) .undefined
    (.obj [("blockReason", .str "SAFETY")]) "SAFETY"
    ⟨rfl, ⟨.obj [("prompt", .str "cats")], .str "cats", rfl, rfl, rfl, rfl⟩, rfl, by decide⟩
    ⟨_, _, rfl, rfl, rfl, rfl⟩ rfl (Or.inl rfl) rfl rfl (by decide)).2 rfl

/-- Claim C6 fails as stated. The upstream body whose prompt feedback has the empty
string as block reason has no candidate and carries a block reason `r`, the empty string;
the handler answers status 500 with `Invalid response structure from API.`, not status
400: the check of line 70 takes an empty reason for no reason. -/
theorem empty_block_reason_is_invalid_structure :
    sampleParse "\x7b\"promptFeedback\":\x7b\"blockReason\":\"\"\x7d\x7d" =
        .ok (.obj [("promptFeedback", .obj [("blockReason", .str "")])]) ∧
      (handler (sampleRuntime (some "secret") (okReply
        "\x7b\"promptFeedback\":\x7b\"blockReason\":\"\"\x7d\x7d"))
        (post "\x7b\"prompt\":\"cats\"\x7d")).response =
      ⟨500, "\x7b\"error\":\"Invalid response structure from API.\"\x7d"⟩ :=
  ⟨rfl, by decide⟩

end IdeaSpark
